import Mathlib

/-!
Shallow embedding of `src/packages/web3-providers/src/providers/MistEthereumProvider.js`.

The provider adapter wraps an external transport handle (the Mist injected
`Web3EthereumProvider` object, called `connection` in the source): it registers
and removes event listeners on the transport, exposes the connection state and
dispatches single and batched JSON-RPC requests.

Modelling decisions, all taken from the JavaScript semantics of the source:
- JavaScript values relevant to the claims are modelled by the inductive
  `JsValue` (undefined, null, booleans, integer numbers, strings, arrays,
  objects, and Error instances).  Reading an absent field of an object yields
  `undefined`; reading the field `id` of an array value yields `undefined`.
- Listener registration and removal on the transport is identity based, as for
  every JavaScript event emitter: `on` appends the given function value,
  `removeListener` removes at most one registration whose function value is
  equal to the given one.  `f.bind(this)` produces a function value distinct
  from `f`; the inductive `Handler` separates the unbound prototype method
  (`Handler.method m`) from the closure obtained by binding it
  (`Handler.bound m`).
- Asynchronous settlement is modelled by `Except`: `Except.ok` is a resolved
  promise, `Except.error` a rejected one.  The transport completion callback
  arguments (error, response) are the inputs of the settlement functions.
-/

set_option autoImplicit false
set_option linter.unusedVariables false

namespace MistEthereumProvider

/-- JavaScript values, as far as the provider adapter inspects them. -/
inductive JsValue where
  | undefined : JsValue
  | null : JsValue
  | bool (b : Bool) : JsValue
  | num (n : Int) : JsValue
  | str (s : String) : JsValue
  | arr (elements : List JsValue) : JsValue
  | obj (fields : List (String × JsValue)) : JsValue
  | errorObj (message : String) : JsValue

/-- JavaScript truthiness of a `JsValue`. -/
def truthy : JsValue → Bool
  | JsValue.undefined => false
  | JsValue.null => false
  | JsValue.bool b => b
  | JsValue.num n => n != 0
  | JsValue.str s => s != ""
  | JsValue.arr _ => true
  | JsValue.obj _ => true
  | JsValue.errorObj _ => true

/-- The JavaScript test `v instanceof Error`. -/
def instanceofError : JsValue → Bool
  | JsValue.errorObj _ => true
  | _ => false

/-- Reads a named field from the fields of an object, first binding wins. -/
def getFieldOf : List (String × JsValue) → String → JsValue
  | [], _ => JsValue.undefined
  | (k, v) :: rest, name => if k == name then v else getFieldOf rest name

/-- JavaScript property read `v.name`: an absent field, and any property of a
non-object (in particular the field `id` of an array payload), is `undefined`. -/
def getField : JsValue → String → JsValue
  | JsValue.obj fields, name => getFieldOf fields name
  | _, _ => JsValue.undefined

/-- The internal handler methods of the provider (inherited from
`AbstractSocketProvider`): `onMessage`, `onError`, `onConnect`, `onReady`,
`onClose`.  Their bodies are irrelevant to the claims; only their identities
as function values matter. -/
inductive Method where
  | onMessage : Method
  | onError : Method
  | onConnect : Method
  | onReady : Method
  | onClose : Method
deriving DecidableEq, Repr

/-- A JavaScript function value used as a transport listener.
`Handler.method m` is the unbound prototype method `this.m`;
`Handler.bound m` is the distinct function value `this.m.bind(this)`. -/
inductive Handler where
  | method (m : Method) : Handler
  | bound (m : Method) : Handler
deriving DecidableEq, Repr

/-- The external transport handle (`this.connection`): its listener registry in
registration order, and its reported connectivity state. -/
structure Connection where
  listeners : List (String × Handler)
  isConnectedFlag : Bool
deriving DecidableEq, Repr

/-- The transport's `isConnected()` query: reads the current reported state. -/
def Connection.isConnected (c : Connection) : Bool :=
  c.isConnectedFlag

/-- The transport's `on(event, handler)`: appends a listener registration. -/
def Connection.on (c : Connection) (event : String) (handler : Handler) : Connection :=
  { c with listeners := c.listeners ++ [(event, handler)] }

/-- Removes at most one registration matching the event name and the exact
function value, identity based as for every JavaScript event emitter. -/
def removeListenerFrom : List (String × Handler) → String → Handler → List (String × Handler)
  | [], _, _ => []
  | (e, g) :: rest, event, handler =>
    if e = event ∧ g = handler then rest
    else (e, g) :: removeListenerFrom rest event handler

/-- The transport's `removeListener(event, handler)`. -/
def Connection.removeListener (c : Connection) (event : String) (handler : Handler) : Connection :=
  { c with listeners := removeListenerFrom c.listeners event handler }

/-- The listeners the transport would invoke, in order, when it emits the given
event. -/
def Connection.handlersFor (c : Connection) (event : String) : List Handler :=
  (c.listeners.filter (fun p => p.1 == event)).map Prod.snd

/-- The provider state: the connection reference, the `host` field set by the
constructor, and the log of tokens passed to the superclass generic
`removeAllListeners` (the internal event-emitter cleanup). -/
structure ProviderState where
  connection : Connection
  host : String
  superRemoveAllListenersCalls : List JsValue

/-- The constructor `new MistEthereumProvider(connection)`: stores the
connection reference and sets `host` to the string mist; no internal
cleanup call has happened yet. -/
def mkMistEthereumProvider (connection : Connection) : ProviderState :=
  { connection := connection
  , host := "mist"
  , superRemoveAllListenersCalls := [] }

/-- Modelled from the spec: the logical category token for the message
category (the getter `SOCKET_MESSAGE` of `AbstractSocketProvider`, whose
source is not part of this repository snapshot). -/
def SOCKET_MESSAGE : String := "socket_message"

/-- Modelled from the spec: the logical category token for the error
category (the getter `SOCKET_ERROR` of `AbstractSocketProvider`). -/
def SOCKET_ERROR : String := "socket_error"

/-- Modelled from the spec: the logical category token for the connect
category (the getter `SOCKET_CONNECT` of `AbstractSocketProvider`). -/
def SOCKET_CONNECT : String := "socket_connect"

/-- Modelled from the spec: the logical category token for the ready
category (the getter `SOCKET_READY` of `AbstractSocketProvider`). -/
def SOCKET_READY : String := "socket_ready"

/-- Modelled from the spec: the logical category token for the close
category (the getter `SOCKET_CLOSE` of `AbstractSocketProvider`). -/
def SOCKET_CLOSE : String := "socket_close"

/-- The strict equality test of the `switch` statement: the scrutinee is a
`JsValue` token and every case label is one of the category token strings. -/
def jsStrEq (v : JsValue) (s : String) : Bool :=
  match v with
  | JsValue.str t => t == s
  | _ => false

/-- `registerEventListeners()`: binds the five bound closures on the transport,
in source order: data, error, connect (twice: connect handler and ready
handler), end. -/
def registerEventListeners (s : ProviderState) : ProviderState :=
  let connection :=
    ((((s.connection.on "data" (Handler.bound Method.onMessage)).on
        "error" (Handler.bound Method.onError)).on
        "connect" (Handler.bound Method.onConnect)).on
        "connect" (Handler.bound Method.onReady)).on
        "end" (Handler.bound Method.onClose)
  { s with connection := connection }

/-- `removeAllListeners(event)`: the `switch` over the five category tokens,
each case calling the transport's `removeListener` with the unbound prototype
method, followed unconditionally by `super.removeAllListeners(event)` (the
superclass body is not in this snapshot; modelled from the spec as the generic
internal listener-removal step, recorded here as a call log entry). -/
def removeAllListeners (s : ProviderState) (event : JsValue) : ProviderState :=
  let connection :=
    if jsStrEq event SOCKET_MESSAGE then
      s.connection.removeListener "data" (Handler.method Method.onMessage)
    else if jsStrEq event SOCKET_ERROR then
      s.connection.removeListener "error" (Handler.method Method.onError)
    else if jsStrEq event SOCKET_CONNECT then
      s.connection.removeListener "connect" (Handler.method Method.onConnect)
    else if jsStrEq event SOCKET_READY then
      s.connection.removeListener "connect" (Handler.method Method.onConnect)
    else if jsStrEq event SOCKET_CLOSE then
      s.connection.removeListener "end" (Handler.method Method.onClose)
    else s.connection
  { s with connection := connection
         , superRemoveAllListenersCalls := s.superRemoveAllListenersCalls ++ [event] }

/-- `disconnect()`: returns `true` and leaves the state untouched. -/
def disconnect (s : ProviderState) : Bool × ProviderState :=
  (true, s)

/-- The getter `connected`: delegates to the transport's `isConnected()`. -/
def connected (s : ProviderState) : Bool :=
  s.connection.isConnected

/-- The settlement of the promise returned by `sendPayload(payload)`, as a
function of the transport completion callback arguments: `if (!error)` resolve
with the raw response, otherwise reject with the error. -/
def sendPayloadOutcome (error response : JsValue) : Except JsValue JsValue :=
  if !(truthy error) then Except.ok response
  else Except.error error

/-- One observable step of the completion callback body of `sendPayload`. -/
inductive CallbackStep where
  | cleanup (token : JsValue) : CallbackStep
  | resolved (response : JsValue) : CallbackStep
  | rejected (error : JsValue) : CallbackStep

/-- Whether a callback step settles the promise (a resolve or a reject). -/
def CallbackStep.isSettlement : CallbackStep → Bool
  | CallbackStep.cleanup _ => false
  | CallbackStep.resolved _ => true
  | CallbackStep.rejected _ => true

/-- The straight-line body of the completion callback of `sendPayload`, as the
ordered list of its observable steps: first `removeAllListeners(payload.id)`,
then `if (!error) return resolve(response);` and otherwise `reject(error)`. -/
def sendPayloadCallbackSteps (payload error response : JsValue) : List CallbackStep :=
  CallbackStep.cleanup (getField payload "id") ::
    (if !(truthy error) then [CallbackStep.resolved response]
     else [CallbackStep.rejected error])

/-- The state effect of the completion callback of `sendPayload`: the call
`this.removeAllListeners(payload.id)`. -/
def sendPayloadCallbackState (s : ProviderState) (payload : JsValue) : ProviderState :=
  removeAllListeners s (getField payload "id")

/-- The `.then` continuation inside `send`: validates the response; an Error
instance returned by the validator is thrown (rejecting the chained promise),
otherwise the continuation returns `response.result`. -/
def sendThenCallback (validate : JsValue → JsValue) (response : JsValue) : Except JsValue JsValue :=
  let validationResult := validate response
  if instanceofError validationResult then Except.error validationResult
  else Except.ok (getField response "result")

/-- The settlement of the promise returned by
`send(method, parameters)`, as a function of the external validator
(`JsonRpcResponseValidator.validate`), the external payload mapper
(`JsonRpcMapper.toPayload`), the call arguments and the transport completion
callback arguments: `sendPayload` followed by the `.then` continuation (a
rejection of `sendPayload` propagates past `.then`). -/
def send (validate : JsValue → JsValue) (toPayload : String → List JsValue → JsValue)
    (method : String) (parameters : List JsValue) (error response : JsValue) :
    Except JsValue JsValue :=
  match sendPayloadOutcome error response with
  | Except.ok response => sendThenCallback validate response
  | Except.error e => Except.error e

/-- A JSON-RPC method descriptor as `sendBatch` reads it: its `rpcMethod` name
and its `parameters`.  The external `beforeExecution` hook is modelled as a
function from the descriptor and the module instance to the updated
descriptor. -/
structure MethodDescriptor where
  rpcMethod : String
  parameters : List JsValue

/-- One observable step of the `forEach` body of `sendBatch`: the invocation
of a descriptor's `beforeExecution(moduleInstance)` hook, or the push of a
mapped payload entry. -/
inductive BatchEvent where
  | beforeExec (descriptor : MethodDescriptor) (moduleInstance : JsValue) : BatchEvent
  | pushed (payloadEntry : JsValue) : BatchEvent

/-- The `forEach` body of `sendBatch`: invokes `method.beforeExecution` on the
module instance, then pushes `JsonRpcMapper.toPayload(method.rpcMethod,
method.parameters)` of the updated descriptor; the first component accumulates
the observable steps, the second the payload array. -/
def sendBatchStep (beforeExecution : MethodDescriptor → JsValue → MethodDescriptor)
    (toPayload : String → List JsValue → JsValue) (moduleInstance : JsValue)
    (acc : List BatchEvent × List JsValue) (method : MethodDescriptor) :
    List BatchEvent × List JsValue :=
  let updated := beforeExecution method moduleInstance
  (acc.1 ++ [BatchEvent.beforeExec method moduleInstance,
             BatchEvent.pushed (toPayload updated.rpcMethod updated.parameters)],
   acc.2 ++ [toPayload updated.rpcMethod updated.parameters])

/-- `sendBatch(methods, moduleInstance)` up to the transmission point: iterates
the descriptors in order with `sendBatchStep` starting from the empty payload
array, and hands the accumulated array to `sendPayload` as a single array
payload.  Returns the observable step trace and that array payload. -/
def sendBatch (beforeExecution : MethodDescriptor → JsValue → MethodDescriptor)
    (toPayload : String → List JsValue → JsValue)
    (methods : List MethodDescriptor) (moduleInstance : JsValue) :
    List BatchEvent × JsValue :=
  let acc := methods.foldl (sendBatchStep beforeExecution toPayload moduleInstance) ([], [])
  (acc.1, JsValue.arr acc.2)

/-- The settlement of the promise returned by `sendBatch`: the source returns
`this.sendPayload(payload)` directly, so the settlement is exactly the
settlement of `sendPayload` on the transport completion callback arguments,
with no per-element validation. -/
def sendBatchResult (beforeExecution : MethodDescriptor → JsValue → MethodDescriptor)
    (toPayload : String → List JsValue → JsValue)
    (methods : List MethodDescriptor) (moduleInstance : JsValue)
    (error response : JsValue) : Except JsValue JsValue :=
  sendPayloadOutcome error response

/-- Whether a token is one of the five recognized category tokens, under the
strict-equality comparison of the `switch` in `removeAllListeners`. -/
def isCategoryToken (token : JsValue) : Bool :=
  jsStrEq token SOCKET_MESSAGE || jsStrEq token SOCKET_ERROR ||
    jsStrEq token SOCKET_CONNECT || jsStrEq token SOCKET_READY ||
      jsStrEq token SOCKET_CLOSE

/-- Looking up an absent key yields `undefined`. -/
theorem getFieldOf_absent (fields : List (String × JsValue)) (name : String)
    (habsent : ∀ p ∈ fields, p.1 ≠ name) :
    getFieldOf fields name = JsValue.undefined := by
  induction fields with
  | nil => rfl
  | cons head rest ih =>
    have hk : (head.1 == name) = false :=
      beq_eq_false_iff_ne.mpr (habsent head (List.mem_cons_self head rest))
    have hrest : getFieldOf rest name = JsValue.undefined :=
      ih fun p hp => habsent p (List.mem_cons_of_mem head hp)
    cases head with
    | mk k v => simp only [getFieldOf] at hk ⊢; simp [hk, hrest]

/-- Claim C8: every read of `connected` returns the transport's current
`isConnected()` value with no caching; updating the transport's reported
state changes the very next read. -/
theorem connected_reflects_transport (s : ProviderState) (b : Bool) :
    connected s = s.connection.isConnected ∧
    connected { s with connection := { s.connection with isConnectedFlag := b } } = b :=
  ⟨rfl, rfl⟩

/-- Claim C9: `disconnect()` returns the fixed success indicator `true` and
leaves the provider state, in particular the transport handle and its
registered listeners, unchanged. -/
theorem disconnect_returns_true_no_side_effect (s : ProviderState) :
    disconnect s = (true, s) ∧
    (disconnect s).2.connection = s.connection ∧
    (disconnect s).2.connection.listeners = s.connection.listeners :=
  ⟨rfl, rfl, rfl⟩

/-- Claim C5: one call to `registerEventListeners()` appends exactly five
transport bindings, in source order: `data` to the bound message handler,
`error` to the bound error handler, `connect` to the bound connect handler and
to the bound ready handler (two independent bindings), and `end` to the bound
close handler; starting from a transport with no listeners, no other transport
event has a listener afterwards. -/
theorem registerEventListeners_bindings (s : ProviderState) (event : String) :
    (registerEventListeners s).connection.listeners =
      s.connection.listeners ++
        [("data", Handler.bound Method.onMessage),
         ("error", Handler.bound Method.onError),
         ("connect", Handler.bound Method.onConnect),
         ("connect", Handler.bound Method.onReady),
         ("end", Handler.bound Method.onClose)] ∧
    (registerEventListeners (mkMistEthereumProvider ⟨[], true⟩)).connection.handlersFor event =
      (if event = "data" then [Handler.bound Method.onMessage]
       else if event = "error" then [Handler.bound Method.onError]
       else if event = "connect" then [Handler.bound Method.onConnect, Handler.bound Method.onReady]
       else if event = "end" then [Handler.bound Method.onClose]
       else []) := by
  constructor
  · simp [registerEventListeners, Connection.on]
  · by_cases h1 : event = "data"
    · subst h1; decide
    · by_cases h2 : event = "error"
      · subst h2; decide
      · by_cases h3 : event = "connect"
        · subst h3; decide
        · by_cases h4 : event = "end"
          · subst h4; decide
          · rw [if_neg h1, if_neg h2, if_neg h3, if_neg h4]
            have hd : (("data" : String) == event) = false :=
              beq_eq_false_iff_ne.mpr fun h => h1 h.symm
            have he : (("error" : String) == event) = false :=
              beq_eq_false_iff_ne.mpr fun h => h2 h.symm
            have hc : (("connect" : String) == event) = false :=
              beq_eq_false_iff_ne.mpr fun h => h3 h.symm
            have hn : (("end" : String) == event) = false :=
              beq_eq_false_iff_ne.mpr fun h => h4 h.symm
            simp [registerEventListeners, mkMistEthereumProvider, Connection.on,
              Connection.handlersFor, List.filter, hd, he, hc, hn]

/-- Claim C4: the claim fails on the code.  After `registerEventListeners()`,
calling `removeAllListeners` with the close category token leaves the
transport's listener list entirely unchanged — the `switch` case calls
`removeListener('end', this.onClose)` with the unbound prototype method, which
is a different function value than the `this.onClose.bind(this)` closure that
was registered — so a subsequent `end` event still invokes the bound close
handler, and no known category's removal detaches its transport listener. -/
theorem removeAllListeners_close_keeps_end_listener :
    Handler.bound Method.onClose ∈
      ((removeAllListeners (registerEventListeners (mkMistEthereumProvider ⟨[], true⟩))
          (JsValue.str SOCKET_CLOSE)).connection.handlersFor "end") ∧
    (removeAllListeners (registerEventListeners (mkMistEthereumProvider ⟨[], true⟩))
        (JsValue.str SOCKET_CLOSE)).connection.listeners =
      (registerEventListeners (mkMistEthereumProvider ⟨[], true⟩)).connection.listeners :=
  ⟨by decide, by decide⟩

/-- Claim C7: any token that is not one of the five recognized category tokens
(for example a request id) leaves every transport-level listener unchanged, no
exception is raised (the embedding is a total function), and the generic
superclass listener-removal step is still invoked for exactly that token. -/
theorem removeAllListeners_unknown_token (s : ProviderState) (token : JsValue)
    (hunknown : isCategoryToken token = false) :
    (removeAllListeners s token).connection = s.connection ∧
    (removeAllListeners s token).superRemoveAllListenersCalls =
      s.superRemoveAllListenersCalls ++ [token] := by
  simp only [isCategoryToken, Bool.or_eq_false_iff] at hunknown
  obtain ⟨⟨⟨⟨h1, h2⟩, h3⟩, h4⟩, h5⟩ := hunknown
  constructor
  · simp [removeAllListeners, h1, h2, h3, h4, h5]
  · simp [removeAllListeners]

/-- Witness for claim C7: the request id 1 is not a category token; removing
it touches no transport listener and logs one generic-removal call. -/
theorem removeAllListeners_unknown_token_witness :
    isCategoryToken (JsValue.num 1) = false ∧
    (removeAllListeners (mkMistEthereumProvider ⟨[], true⟩) (JsValue.num 1)).connection =
      (mkMistEthereumProvider ⟨[], true⟩).connection ∧
    (removeAllListeners (mkMistEthereumProvider ⟨[], true⟩)
        (JsValue.num 1)).superRemoveAllListenersCalls = [JsValue.num 1] := by
  have h := removeAllListeners_unknown_token (mkMistEthereumProvider ⟨[], true⟩)
    (JsValue.num 1) (by decide)
  exact ⟨by decide, h.1, h.2⟩

/-- Claim C3: when the transport completion callback fires, `sendPayload`
resolves with the raw response if the callback reports no error, rejects with
that error otherwise, and the callback body performs exactly one settlement
step per invocation. -/
theorem sendPayload_settles_once (payload error response : JsValue) :
    (truthy error = false → sendPayloadOutcome error response = Except.ok response) ∧
    (truthy error = true → sendPayloadOutcome error response = Except.error error) ∧
    (sendPayloadCallbackSteps payload error response).countP CallbackStep.isSettlement = 1 := by
  refine ⟨fun h => by simp [sendPayloadOutcome, h], fun h => by simp [sendPayloadOutcome, h], ?_⟩
  cases h : truthy error <;>
    simp [sendPayloadCallbackSteps, h, List.countP_cons, CallbackStep.isSettlement]

/-- Witness for claim C3: a callback with a null error and the response ok
resolves with the response and performs exactly one settlement step. -/
theorem sendPayload_settles_once_witness :
    sendPayloadOutcome JsValue.null (JsValue.str "ok") = Except.ok (JsValue.str "ok") ∧
    (sendPayloadCallbackSteps (JsValue.obj [("id", JsValue.num 1)]) JsValue.null
        (JsValue.str "ok")).countP CallbackStep.isSettlement = 1 :=
  ⟨(sendPayload_settles_once (JsValue.obj [("id", JsValue.num 1)]) JsValue.null
      (JsValue.str "ok")).1 rfl,
   (sendPayload_settles_once (JsValue.obj [("id", JsValue.num 1)]) JsValue.null
      (JsValue.str "ok")).2.2⟩

/-- Claim C6: the completion callback of `sendPayload` calls
`removeAllListeners(payload.id)` first — every later step of the callback body
is a settlement, on the success branch and on the error branch alike — and for
a batch payload, which is an array, `payload.id` is `undefined`, so the
cleanup call uses an undefined key and leaves the transport listeners
unchanged. -/
theorem sendPayload_cleanup_first (s : ProviderState) (payload error response : JsValue)
    (elements : List JsValue) :
    (sendPayloadCallbackSteps payload error response).head? =
      some (CallbackStep.cleanup (getField payload "id")) ∧
    (∀ step ∈ (sendPayloadCallbackSteps payload error response).tail,
        CallbackStep.isSettlement step = true) ∧
    getField (JsValue.arr elements) "id" = JsValue.undefined ∧
    (sendPayloadCallbackState s (JsValue.arr elements)).connection = s.connection := by
  refine ⟨rfl, ?_, rfl, ?_⟩
  · intro step hstep
    cases h : truthy error <;>
      simp [sendPayloadCallbackSteps, h] at hstep <;>
        simp [hstep, CallbackStep.isSettlement]
  · simp [sendPayloadCallbackState, removeAllListeners, getField, jsStrEq]

/-- Witness for claim C6: dispatching the empty batch payload, the callback
cleans up under the undefined key first and touches no transport listener. -/
theorem sendPayload_cleanup_first_witness :
    (sendPayloadCallbackSteps (JsValue.arr []) JsValue.null (JsValue.str "ok")).head? =
      some (CallbackStep.cleanup JsValue.undefined) ∧
    (sendPayloadCallbackState (mkMistEthereumProvider ⟨[], true⟩) (JsValue.arr [])).connection =
      (mkMistEthereumProvider ⟨[], true⟩).connection := by
  have h := sendPayload_cleanup_first (mkMistEthereumProvider ⟨[], true⟩) (JsValue.arr [])
    JsValue.null (JsValue.str "ok") []
  exact ⟨h.1, h.2.2.2⟩

/-- Claim C1: for a response delivered to a pending `send` call (the callback
reported no error), if the validator does not return an Error instance the
promise resolves with exactly the `result` field of the response, and if it
returns an Error instance the promise rejects with exactly that validator
error. -/
theorem send_resolves_result_or_validator_error
    (validate : JsValue → JsValue) (toPayload : String → List JsValue → JsValue)
    (method : String) (parameters : List JsValue) (error response : JsValue)
    (hdelivered : truthy error = false) :
    (instanceofError (validate response) = false →
      send validate toPayload method parameters error response =
        Except.ok (getField response "result")) ∧
    (instanceofError (validate response) = true →
      send validate toPayload method parameters error response =
        Except.error (validate response)) := by
  constructor <;> intro h <;>
    simp [send, sendPayloadOutcome, hdelivered, sendThenCallback, h]

/-- Witness for claim C1: a validator that returns null (not an Error) lets a
response with result 0x10 resolve to exactly 0x10. -/
theorem send_resolves_result_or_validator_error_witness :
    truthy JsValue.null = false ∧
    send (fun _ => JsValue.null) (fun name ps => JsValue.obj [("id", JsValue.num 1)])
      "eth_getBalance" [] JsValue.null (JsValue.obj [("result", JsValue.str "0x10")]) =
      Except.ok (JsValue.str "0x10") := by
  have h := (send_resolves_result_or_validator_error (fun _ => JsValue.null)
    (fun name ps => JsValue.obj [("id", JsValue.num 1)]) "eth_getBalance" []
    JsValue.null (JsValue.obj [("result", JsValue.str "0x10")]) rfl).1 rfl
  exact ⟨rfl, h⟩

/-- Claim C10: for a delivered response, `send` rejects exactly when the
validator returns an Error instance; any non-Error validator value, falsy ones
included, makes `send` resolve with the response's `result` field, and that
field reads as `undefined` when the response object has no `result` key. -/
theorem send_rejects_iff_validator_error
    (validate : JsValue → JsValue) (toPayload : String → List JsValue → JsValue)
    (method : String) (parameters : List JsValue) (error response : JsValue)
    (hdelivered : truthy error = false) :
    ((∃ e, send validate toPayload method parameters error response = Except.error e) ↔
      instanceofError (validate response) = true) ∧
    (instanceofError (validate response) = false →
      send validate toPayload method parameters error response =
        Except.ok (getField response "result")) ∧
    (∀ fields : List (String × JsValue), (∀ p ∈ fields, p.1 ≠ "result") →
      getField (JsValue.obj fields) "result" = JsValue.undefined) := by
  refine ⟨?_, ?_, ?_⟩
  · cases hv : instanceofError (validate response) <;>
      simp [send, sendPayloadOutcome, hdelivered, sendThenCallback, hv]
  · intro h
    simp [send, sendPayloadOutcome, hdelivered, sendThenCallback, h]
  · intro fields habsent
    simpa [getField] using getFieldOf_absent fields "result" habsent

/-- Witness for claim C10: a validator returning an Error instance makes the
delivered response reject, and a response object without a `result` key has an
undefined `result` field. -/
theorem send_rejects_iff_validator_error_witness :
    (∃ e, send (fun _ => JsValue.errorObj "invalid") (fun name ps => JsValue.obj [])
        "eth_call" [] JsValue.null (JsValue.obj []) = Except.error e) ∧
    getField (JsValue.obj [("jsonrpc", JsValue.str "2.0")]) "result" = JsValue.undefined := by
  have h := send_rejects_iff_validator_error (fun _ => JsValue.errorObj "invalid")
    (fun name ps => JsValue.obj []) "eth_call" [] JsValue.null (JsValue.obj []) rfl
  exact ⟨h.1.mpr rfl, h.2.2 [("jsonrpc", JsValue.str "2.0")] (by decide)⟩

/-- Unfolding the `forEach` accumulation of `sendBatch` over any starting
accumulator: the step trace alternates hook invocation and payload push, in
descriptor order, and the payload array lists the mapped entries in the same
order. -/
theorem foldl_sendBatchStep (beforeExecution : MethodDescriptor → JsValue → MethodDescriptor)
    (toPayload : String → List JsValue → JsValue) (moduleInstance : JsValue) :
    ∀ (methods : List MethodDescriptor) (trace : List BatchEvent) (payload : List JsValue),
    methods.foldl (sendBatchStep beforeExecution toPayload moduleInstance) (trace, payload) =
      (trace ++ methods.flatMap (fun m =>
          [BatchEvent.beforeExec m moduleInstance,
           BatchEvent.pushed (toPayload (beforeExecution m moduleInstance).rpcMethod
             (beforeExecution m moduleInstance).parameters)]),
       payload ++ methods.map (fun m =>
          toPayload (beforeExecution m moduleInstance).rpcMethod
            (beforeExecution m moduleInstance).parameters))
  | [], trace, payload => by simp
  | m :: ms, trace, payload => by
    rw [List.foldl_cons, foldl_sendBatchStep beforeExecution toPayload moduleInstance ms]
    simp [sendBatchStep]

/-- Claim C2: `sendBatch` invokes each descriptor's `beforeExecution` hook
exactly once, immediately before pushing that descriptor's payload entry (the
step trace is exactly the hook/push pair for each descriptor in input order);
the accumulated array payload preserves the input order of the methods; and
the returned promise settles exactly as `sendPayload` does, resolving with the
raw batch response with no per-element validation. -/
theorem sendBatch_order_and_hooks
    (beforeExecution : MethodDescriptor → JsValue → MethodDescriptor)
    (toPayload : String → List JsValue → JsValue)
    (methods : List MethodDescriptor) (moduleInstance : JsValue)
    (error response : JsValue) :
    (sendBatch beforeExecution toPayload methods moduleInstance).1 =
      methods.flatMap (fun m =>
        [BatchEvent.beforeExec m moduleInstance,
         BatchEvent.pushed (toPayload (beforeExecution m moduleInstance).rpcMethod
           (beforeExecution m moduleInstance).parameters)]) ∧
    (sendBatch beforeExecution toPayload methods moduleInstance).2 =
      JsValue.arr (methods.map (fun m =>
        toPayload (beforeExecution m moduleInstance).rpcMethod
          (beforeExecution m moduleInstance).parameters)) ∧
    (truthy error = false →
      sendBatchResult beforeExecution toPayload methods moduleInstance error response =
        Except.ok response) := by
  refine ⟨?_, ?_, fun h => by simp [sendBatchResult, sendPayloadOutcome, h]⟩
  · simp [sendBatch, foldl_sendBatchStep]
  · simp [sendBatch, foldl_sendBatchStep]

/-- Witness for claim C2: a two-method batch maps to the two payload entries
in input order and resolves with the raw two-element response array. -/
theorem sendBatch_order_and_hooks_witness :
    (sendBatch (fun m _ => m) (fun name ps => JsValue.obj [("method", JsValue.str name)])
        [⟨"eth_a", []⟩, ⟨"eth_b", []⟩] JsValue.null).2 =
      JsValue.arr [JsValue.obj [("method", JsValue.str "eth_a")],
                   JsValue.obj [("method", JsValue.str "eth_b")]] ∧
    sendBatchResult (fun m _ => m) (fun name ps => JsValue.obj [("method", JsValue.str name)])
        [⟨"eth_a", []⟩, ⟨"eth_b", []⟩] JsValue.null JsValue.null
        (JsValue.arr [JsValue.obj [("result", JsValue.num 1)],
                      JsValue.obj [("result", JsValue.num 2)]]) =
      Except.ok (JsValue.arr [JsValue.obj [("result", JsValue.num 1)],
                              JsValue.obj [("result", JsValue.num 2)]]) := by
  have h := sendBatch_order_and_hooks (fun m _ => m)
    (fun name ps => JsValue.obj [("method", JsValue.str name)])
    [⟨"eth_a", []⟩, ⟨"eth_b", []⟩] JsValue.null JsValue.null
    (JsValue.arr [JsValue.obj [("result", JsValue.num 1)],
                  JsValue.obj [("result", JsValue.num 2)]])
  exact ⟨h.2.1, h.2.2 rfl⟩

end MistEthereumProvider
